import Mathlib

/-
Shallow embedding of the serial-keyboard firmware
(src/arduino-src/dancepad/dancepad.ino and its structs.h).

Machine integers: `unsigned long` is the AVR 32-bit unsigned type, modelled
as Nat reduced modulo 2^32 wherever the source can overflow.  Bytes are Nat.
Time does not advance during a single pass of the scan engine: every call to
micros() inside one Key_tick invocation is modelled as the single instant
`now` at which the pass runs.  Serial input is a list of bytes; the blocking
next_serial_byte() is modelled by returning `none` ("blocks forever") when
the list is exhausted.  Serial text logging (Serial.print of diagnostics) is
external best-effort output that never affects protocol state and is not
modelled.
-/

/-- Modulus of the 32-bit unsigned long arithmetic used by the firmware. -/
def M32 : Nat := 2 ^ 32

/-- Unsigned 32-bit subtraction `a - b` (wraparound), for a b < 2^32. -/
def wsub (a b : Nat) : Nat := (a + M32 - b) % M32

/-- Reinterpretation of a 32-bit unsigned value as a signed long
(two's complement), as in the cast `(signed long)(now - timeout)`. -/
def toSigned (d : Nat) : Int := if d < 2 ^ 31 then (d : Int) else (d : Int) - (M32 : Int)

/-- struct Timer of structs.h: a deadline plus an enabled flag.
Timer::init leaves `timeout` uninitialized and only clears `enabled`;
the model fixes the meaningless initial timeout at 0. -/
structure Timer where
  timeout : Nat
  enabled : Bool
deriving DecidableEq, Repr

/-- Timer::init: disable the timer (timeout is left meaningless, fixed at 0). -/
def Timer.tinit : Timer := { timeout := 0, enabled := false }

/-- Timer::set: arm the timer unconditionally on the given deadline. -/
def Timer.set (_t : Timer) (deadline : Nat) : Timer :=
  { timeout := deadline, enabled := true }

/-- Timer::check: `expired = enabled && (signed long)(now - timeout) >= 0`;
a true result disables the timer.  Returns (expired, updated timer). -/
def Timer.check (t : Timer) (now : Nat) : Bool × Timer :=
  let expired : Bool := t.enabled && decide (0 ≤ toSigned (wsub now t.timeout))
  (expired, if expired then { t with enabled := false } else t)

/-- struct Key of structs.h: pin, host-visible state, debounce timer. -/
structure Key where
  pin : Nat
  was_down : Bool
  debounce_timer : Timer
deriving DecidableEq, Repr

/-- Key::init(pin). -/
def Key.kinit (pin : Nat) : Key :=
  { pin := pin, was_down := false, debounce_timer := Timer.tinit }

/-- MAX_KEYS of structs.h. -/
def MAX_KEYS : Nat := 128

/-- struct State of dancepad.ino: device configuration plus the key
registry.  The C array `keys[MAX_KEYS]` together with `key_count` is
modelled as the list of the first `key_count` keys. -/
structure State where
  debounce_micros : Nat
  await_smoothness : Bool
  enable_interrupts : Bool
  keys : List Key
deriving DecidableEq, Repr

/-- State::init: the defaults installed at the start of every session. -/
def State.init : State :=
  { debounce_micros := 1000, await_smoothness := true,
    enable_interrupts := false, keys := [] }

/-- set_debounce (dancepad.ino): store the debounce window. -/
def set_debounce (st : State) (debounce : Nat) : State :=
  { st with debounce_micros := debounce }

/-- set_await_smoothness (dancepad.ino). -/
def set_await_smoothness (st : State) (await : Bool) : State :=
  { st with await_smoothness := await }

/-- set_enable_interrupts (dancepad.ino). -/
def set_enable_interrupts (st : State) (enable : Bool) : State :=
  { st with enable_interrupts := enable }

/-- Key_setup (dancepad.ino): append a key if the registry is not full. -/
def Key_setup (st : State) (pin : Nat) : State :=
  if st.keys.length < MAX_KEYS then { st with keys := st.keys ++ [Key.kinit pin] }
  else st

/-- Event byte of Key_tick: `(i & 0x7F) | (is_down ? 0x80 : 0x00)`. -/
def eventByte (i : Nat) (is_down : Bool) : Nat :=
  (i &&& 0x7F) ||| (if is_down then 0x80 else 0x00)

/-- Body of the per-key loop of Key_tick (dancepad.ino lines 81-98) at
instant `now`: `is_down` is the raw reading of the key's pin, `i` its
registry index.  Returns the updated key and the emitted event bytes. -/
def tickKey (await : Bool) (db : Nat) (now : Nat) (is_down : Bool) (i : Nat) (key : Key) :
    Key × List Nat :=
  if key.was_down != is_down then
    let res := Timer.check key.debounce_timer now
    let debounce := res.1
    let key0 := { key with debounce_timer := res.2 }
    let key1 := if !debounce then { key0 with was_down := is_down } else key0
    let out : List Nat := if !debounce then [eventByte i is_down] else []
    let key2 :=
      if await || !debounce then
        { key1 with debounce_timer := Timer.set key1.debounce_timer ((now + db) % M32) }
      else key1
    (key2, out)
  else (key, [])

/-- The per-key loop of Key_tick over the whole registry, indices from i. -/
def tickKeys (await : Bool) (db : Nat) (now : Nat) (raw : Nat → Bool) :
    Nat → List Key → List Key × List Nat
  | _, [] => ([], [])
  | i, k :: ks =>
    match tickKey await db now (raw k.pin) i k with
    | (k1, out) =>
      match tickKeys await db now raw (i + 1) ks with
      | (ks1, outs) => (k1 :: ks1, out ++ outs)

/-- Key_tick (dancepad.ino lines 72-102): guarded scan pass at instant
`now`.  `guard` is the static min_tick_time; `raw pin` is the reading
`digitalRead(pin)==LOW`.  Returns (new state, new guard, event bytes). -/
def Key_tick (st : State) (guard now : Nat) (raw : Nat → Bool) : State × Nat × List Nat :=
  if now < guard then (st, guard, [])
  else
    match tickKeys st.await_smoothness st.debounce_micros now raw 0 st.keys with
    | (ks, outs) => ({ st with keys := ks }, (now + 50) % M32, outs)

/-- MAGIC_NUMBER of structs.h: the bytes of the magic handshake. -/
def MAGIC_NUMBER : List Nat := [83, 101, 114, 75, 101, 121, 48, 49]

/-- One iteration of the resync loop (dancepad.ino lines 119-124) on the
state (magic_idx, garbage): compare the byte against
MAGIC_NUMBER[magic_idx], post-increment, and on mismatch add the bytes of
the failed attempt to the garbage count and restart. -/
def resyncStep (s : Nat × Nat) (b : Nat) : Nat × Nat :=
  if b = MAGIC_NUMBER.getD s.1 0 then (s.1 + 1, s.2) else (0, s.2 + (s.1 + 1))

/-- The resync loop `while(magic_idx<8)` run on a byte list from state
(magic_idx, garbage).  Stops consuming once magic_idx reaches 8 (the match
is complete and CONFIGURING is entered); if the list runs out earlier the
loop would block, modelled by returning the state reached so far with an
empty remainder. -/
def resyncRun (s : Nat × Nat) : List Nat → (Nat × Nat) × List Nat
  | [] => (s, [])
  | b :: rest =>
    if s.1 < 8 then resyncRun (resyncStep s b) rest
    else (s, b :: rest)

/-- The excess-byte drain loop of the command reader (dancepad.ino lines
203-206): read and discard n bytes; `none` models blocking on a short
stream. -/
def drain : Nat → List Nat → Option (List Nat)
  | 0, input => some input
  | _ + 1, [] => none
  | n + 1, _ :: rest => drain n rest

/-- Outcome of one command iteration of the CONFIGURING loop. -/
inductive CmdOutcome where
  | cont
  | finished
  | reset
deriving DecidableEq, Repr

/-- Command byte constants of dancepad.ino. -/
def SETUPCMD_FINISH : Nat := 0x0F

def SETUPCMD_ADD_KEY : Nat := 0xAD

def SETUPCMD_SET_DEBOUNCE : Nat := 0xDB

def SETUPCMD_AWAIT_SMOOTHNESS : Nat := 0xAE

def CMD_RESET : Nat := 0xEE

def SETUPCMD_ENABLE_INTERRUPTS : Nat := 0xEA

/-- One iteration of the CONFIGURING command loop (dancepad.ino lines
138-207): read a command byte and a big-endian 16-bit payload length,
dispatch, then drain any unread declared payload.  CMD_RESET jumps
straight out (`goto quit`) and skips the drain.  `none` models blocking on
a stream with too few bytes.  Returns (outcome, new state, remaining
input). -/
def configStep (st : State) (input : List Nat) : Option (CmdOutcome × State × List Nat) :=
  match input with
  | cmd :: hi :: lo :: r3 =>
    let payload_len := (hi <<< 8) ||| lo
    if cmd = SETUPCMD_FINISH then
      (drain payload_len r3).map fun r => (CmdOutcome.finished, st, r)
    else if cmd = SETUPCMD_ADD_KEY then
      if payload_len < 1 then
        (drain payload_len r3).map fun r => (CmdOutcome.cont, st, r)
      else
        match r3 with
        | [] => none
        | pin :: r4 =>
          (drain (payload_len - 1) r4).map fun r => (CmdOutcome.cont, Key_setup st pin, r)
    else if cmd = SETUPCMD_SET_DEBOUNCE then
      if payload_len < 4 then
        (drain payload_len r3).map fun r => (CmdOutcome.cont, st, r)
      else
        match r3 with
        | b0 :: b1 :: b2 :: b3 :: r4 =>
          (drain (payload_len - 4) r4).map fun r =>
            (CmdOutcome.cont, set_debounce st ((b0 <<< 24) ||| (b1 <<< 16) ||| (b2 <<< 8) ||| b3), r)
        | _ => none
    else if cmd = SETUPCMD_AWAIT_SMOOTHNESS then
      if payload_len < 1 then
        (drain payload_len r3).map fun r => (CmdOutcome.cont, st, r)
      else
        match r3 with
        | [] => none
        | b :: r4 =>
          (drain (payload_len - 1) r4).map fun r => (CmdOutcome.cont, set_await_smoothness st (b != 0), r)
    else if cmd = CMD_RESET then
      some (CmdOutcome.reset, st, r3)
    else if cmd = SETUPCMD_ENABLE_INTERRUPTS then
      if payload_len < 1 then
        (drain payload_len r3).map fun r => (CmdOutcome.cont, st, r)
      else
        match r3 with
        | [] => none
        | b :: r4 =>
          (drain (payload_len - 1) r4).map fun r => (CmdOutcome.cont, set_enable_interrupts st (b != 0), r)
    else
      (drain payload_len r3).map fun r => (CmdOutcome.cont, st, r)
  | _ => none

/-- One iteration of the STREAMING loop (dancepad.ino lines 236-242): run
Key_tick, then do one non-blocking Serial.read (consuming at most one
byte) and exit exactly when the byte read equals CMD_RESET; an empty
stream reads -1, which is not CMD_RESET.  Returns ((state, guard, events),
remaining serial input, exit flag). -/
def streamPoll (st : State) (guard now : Nat) (raw : Nat → Bool) (serial : List Nat) :
    (State × Nat × List Nat) × List Nat × Bool :=
  let r := Key_tick st guard now raw
  match serial with
  | [] => (r, [], false)
  | b :: rest => (r, rest, decide (b = CMD_RESET))

/-
Helper lemmas shared by the claim theorems.
-/

/-- A payload of exactly the declared length is drained completely. -/
theorem drain_append (p rest : List Nat) : drain p.length (p ++ rest) = some rest := by
  induction p with
  | nil => rfl
  | cons a p ih => simpa [drain] using ih

/-- Sign test of the 32-bit signed reinterpretation. -/
theorem toSigned_nonneg (d : Nat) (h : d < 2 ^ 32) : 0 ≤ toSigned d ↔ d < 2 ^ 31 := by
  unfold toSigned M32
  by_cases hc : d < 2 ^ 31 <;> simp [hc] <;> omega

/-- Unfolding of one blocked-free resync iteration. -/
theorem resyncRun_cons (s : Nat × Nat) (b : Nat) (rest : List Nat) (h : s.1 < 8) :
    resyncRun s (b :: rest) = resyncRun (resyncStep s b) rest := by
  simp [resyncRun, h]

/-- Unfolding of resyncStep on an explicit pair. -/
theorem resyncStep_eq (i g b : Nat) :
    resyncStep (i, g) b =
      if b = MAGIC_NUMBER.getD i 0 then (i + 1, g) else (0, g + (i + 1)) := rfl

/-- Resync consumes a fully-consumed prefix first. -/
theorem resyncRun_append (xs : List Nat) : ∀ (s s2 : Nat × Nat) (ys : List Nat),
    resyncRun s xs = (s2, []) → resyncRun s (xs ++ ys) = resyncRun s2 ys := by
  induction xs with
  | nil =>
    intro s s2 ys h
    simp only [resyncRun, Prod.mk.injEq] at h
    rw [List.nil_append, h.1]
  | cons b xs ih =>
    intro s s2 ys h
    by_cases hs : s.1 < 8
    · simp only [resyncRun, List.cons_append, if_pos hs] at h ⊢
      exact ih _ _ _ h
    · simp only [resyncRun, if_neg hs, Prod.mk.injEq] at h
      exact absurd h.2 (by simp)

/-- From index 0 the matcher consumes the whole magic and reaches index 8. -/
theorem resyncRun_magic (g : Nat) : resyncRun (0, g) MAGIC_NUMBER = ((8, g), []) := rfl

/-- Once the index has reached 8 the loop consumes nothing more. -/
theorem resyncRun_stopped (g : Nat) (rest : List Nat) :
    resyncRun (8, g) rest = ((8, g), rest) := by
  cases rest <;> rfl

/-- When the input is fully consumed, garbage count plus current partial-match
index accounts for every byte read. -/
theorem resyncRun_count (xs : List Nat) : ∀ (i g : Nat) (p : Nat × Nat),
    resyncRun (i, g) xs = (p, []) → p.2 + p.1 = g + i + xs.length := by
  induction xs with
  | nil =>
    intro i g p h
    simp only [resyncRun, Prod.mk.injEq] at h
    rw [← h.1]
    simp
  | cons b xs ih =>
    intro i g p h
    by_cases hi : i < 8
    · rw [resyncRun_cons _ _ _ hi, resyncStep_eq] at h
      by_cases hb : b = MAGIC_NUMBER.getD i 0
      · rw [if_pos hb] at h
        have := ih (i + 1) g p h
        simp only [List.length_cons]
        omega
      · rw [if_neg hb] at h
        have := ih 0 (g + (i + 1)) p h
        simp only [List.length_cons]
        omega
    · simp only [resyncRun, if_neg hi, Prod.mk.injEq] at h
      exact absurd h.2 (by simp)

/-- If the matcher reaches index 8, the consumed input ends with the magic
sequence (or completes an initial partial match of it). -/
theorem resyncRun_split (xs : List Nat) : ∀ (i g : Nat) (p : Nat × Nat) (rem : List Nat),
    i ≤ 8 → resyncRun (i, g) xs = (p, rem) → p.1 = 8 →
    xs = MAGIC_NUMBER.drop i ++ rem ∨ ∃ pre, xs = pre ++ MAGIC_NUMBER ++ rem := by
  induction xs with
  | nil =>
    intro i g p rem hi h h8
    simp only [resyncRun, Prod.mk.injEq] at h
    obtain ⟨hp, hrem⟩ := h
    rw [← hp] at h8
    left
    rw [← hrem, show i = 8 from h8]
    rfl
  | cons b xs ih =>
    intro i g p rem hi h h8
    by_cases hlt : i < 8
    · rw [resyncRun_cons _ _ _ hlt, resyncStep_eq] at h
      by_cases hb : b = MAGIC_NUMBER.getD i 0
      · have h2 : resyncRun (i + 1, g) xs = (p, rem) := by rwa [if_pos hb] at h
        rcases ih (i + 1) g p rem (by omega) h2 h8 with hcase | ⟨pre, hcase⟩
        · left
          rw [hcase, hb]
          interval_cases i <;> simp [MAGIC_NUMBER]
        · right
          exact ⟨b :: pre, by simp [hcase]⟩
      · have h2 : resyncRun (0, g + (i + 1)) xs = (p, rem) := by rwa [if_neg hb] at h
        rcases ih 0 _ p rem (by omega) h2 h8 with hcase | ⟨pre, hcase⟩
        · right
          exact ⟨[b], by simpa using hcase⟩
        · right
          exact ⟨b :: pre, by simp [hcase]⟩
    · have hi8 : i = 8 := by omega
      subst hi8
      simp only [resyncRun, if_neg hlt, Prod.mk.injEq] at h
      left
      rw [← h.2]
      rfl

/-- A scan pass over keys whose reported state matches the raw reading
changes nothing and emits nothing. -/
theorem tickKeys_stable (await : Bool) (db now : Nat) (raw : Nat → Bool) :
    ∀ (i : Nat) (ks : List Key), (∀ k ∈ ks, k.was_down = raw k.pin) →
    tickKeys await db now raw i ks = (ks, []) := by
  intro i ks
  induction ks generalizing i with
  | nil => intro _; rfl
  | cons k ks ih =>
    intro h
    have hk : k.was_down = raw k.pin := h k (by simp)
    have hks := ih (i + 1) (fun k2 hk2 => h k2 (by simp [hk2]))
    simp [tickKeys, tickKey, hk, hks]

/-- Claim C3: for every now and deadline in the full 32-bit range, check on
an enabled timer returns true iff the forward distance from deadline to now
modulo 2^32 is below 2^31, and check on a disabled timer returns false. -/
theorem C3_timer_wraparound (now deadline : Nat) (_hn : now < 2 ^ 32) (_hd : deadline < 2 ^ 32) :
    ((Timer.check { timeout := deadline, enabled := true } now).1 = true ↔
      (now + 2 ^ 32 - deadline) % 2 ^ 32 < 2 ^ 31) ∧
    (Timer.check { timeout := deadline, enabled := false } now).1 = false := by
  constructor
  · simp only [Timer.check, Bool.true_and, decide_eq_true_iff]
    rw [toSigned_nonneg _ (by unfold wsub M32; exact Nat.mod_lt _ (by norm_num))]
    unfold wsub M32
    exact Iff.rfl
  · simp [Timer.check]

/-- Closed witness for C3 at now = 5, deadline = 3. -/
theorem C3_timer_wraparound_witness :
    (5 : Nat) < 2 ^ 32 ∧ (3 : Nat) < 2 ^ 32 ∧
    (((Timer.check { timeout := 3, enabled := true } 5).1 = true ↔
        (5 + 2 ^ 32 - 3) % 2 ^ 32 < 2 ^ 31) ∧
      (Timer.check { timeout := 3, enabled := false } 5).1 = false) :=
  ⟨by norm_num, by norm_num, C3_timer_wraparound 5 3 (by norm_num) (by norm_num)⟩

/-- Claim C8: the timer is one-shot: after check returns true, any later
check without an intervening set returns false, and set re-arms the timer
unconditionally. -/
theorem C8_one_shot :
    (∀ (t : Timer) (now now2 : Nat), (Timer.check t now).1 = true → now ≤ now2 →
      (Timer.check (Timer.check t now).2 now2).1 = false) ∧
    (∀ (t : Timer) (d : Nat), Timer.set t d = { timeout := d, enabled := true }) := by
  constructor
  · intro t now now2 h _
    simp only [Timer.check] at h
    have ht : (Timer.check t now).2 = { t with enabled := false } := by
      simp only [Timer.check]
      rw [if_pos h]
    rw [ht]
    simp [Timer.check]
  · intro t d
    rfl

/-- Closed witness for C8: a timer armed on deadline 0 fires at now = 0 and
then reports false at now = 5; set re-arms a disabled timer. -/
theorem C8_one_shot_witness :
    (Timer.check (Timer.check { timeout := 0, enabled := true } 0).2 5).1 = false ∧
    Timer.set { timeout := 9, enabled := false } 3 = { timeout := 3, enabled := true } :=
  ⟨C8_one_shot.1 { timeout := 0, enabled := true } 0 5 (by decide) (by decide),
    C8_one_shot.2 { timeout := 9, enabled := false } 3⟩

/-- Claim C4 counterexample: on the input consisting of the single garbage
byte 83 (the magic sequence's own first byte) followed by the valid 8-byte
magic, the resync loop consumes the entire input (remainder empty) yet its
match index is 0, not 8: CONFIGURING is not entered even though the 8 most
recently consumed bytes equal the magic sequence, refuting both the
"exactly when" and the "[garbage][magic] enters exactly once" parts of the
claim. -/
theorem C4_resync_counterexample :
    (resyncRun (0, 0) (83 :: MAGIC_NUMBER)).2 = [] ∧
    (resyncRun (0, 0) (83 :: MAGIC_NUMBER)).1.1 ≠ 8 := by
  decide

/-- Claim C4 (amended): entering CONFIGURING happens only at a point where
the consumed input ends with the 8-byte magic sequence; and for an input
[garbage][magic], when the matcher holds no partial match at the boundary
(its index is back to 0 after the garbage, as happens whenever no garbage
suffix is a proper prefix of the magic), the device enters configuration
exactly once, immediately after consuming the magic exactly once, reporting
a garbage count equal to the number of garbage bytes.  When the garbage
leaves a nonzero partial-match index, the magic can be consumed without
entering configuration (see the counterexample). -/
theorem C4_resync_amended :
    (∀ (xs rem : List Nat) (p : Nat × Nat), resyncRun (0, 0) xs = (p, rem) → p.1 = 8 →
      ∃ pre, xs = pre ++ MAGIC_NUMBER ++ rem) ∧
    (∀ (gs rest : List Nat) (g : Nat), resyncRun (0, 0) gs = ((0, g), []) →
      g = gs.length ∧ resyncRun (0, 0) (gs ++ (MAGIC_NUMBER ++ rest)) = ((8, g), rest)) := by
  constructor
  · intro xs rem p h h8
    rcases resyncRun_split xs 0 0 p rem (by omega) h h8 with hc | hc
    · exact ⟨[], by simpa using hc⟩
    · exact hc
  · intro gs rest g h
    constructor
    · have := resyncRun_count gs 0 0 (0, g) h
      simpa using this
    · rw [resyncRun_append gs _ _ _ h, resyncRun_append MAGIC_NUMBER _ _ _ (resyncRun_magic g),
        resyncRun_stopped]

/-- Closed witness for the amended C4: entering on the bare magic splits the
input around the magic, and garbage byte 7 (which starts no partial match)
followed by the magic and a trailing byte enters configuration right after
the magic with garbage count 1. -/
theorem C4_resync_amended_witness :
    (∃ pre, MAGIC_NUMBER = pre ++ MAGIC_NUMBER ++ ([] : List Nat)) ∧
    (1 = [7].length ∧ resyncRun (0, 0) ([7] ++ (MAGIC_NUMBER ++ [99])) = ((8, 1), [99])) :=
  ⟨C4_resync_amended.1 MAGIC_NUMBER [] (8, 0) (by decide) (by decide),
    C4_resync_amended.2 [7] [99] 1 (by decide)⟩

/-- Claim C6: in CONFIGURING, a command with a declared payload length
below its required size (ADD_KEY/AWAIT_SMOOTHNESS/ENABLE_INTERRUPTS < 1,
SET_DEBOUNCE < 4) and an unknown command byte leave the configuration and
key registry unchanged, consume exactly the declared payload length after
the 3-byte header, and continue the session so the next command byte is
read correctly.  (The error is additionally logged over serial; logging is
diagnostic output that never affects protocol state and is not modelled.) -/
theorem C6_malformed_commands (st : State) (cmd hi lo : Nat) (payload rest : List Nat)
    (hlen : payload.length = (hi <<< 8) ||| lo)
    (hbad : (cmd = SETUPCMD_ADD_KEY ∧ ((hi <<< 8) ||| lo) < 1) ∨
      (cmd = SETUPCMD_SET_DEBOUNCE ∧ ((hi <<< 8) ||| lo) < 4) ∨
      (cmd = SETUPCMD_AWAIT_SMOOTHNESS ∧ ((hi <<< 8) ||| lo) < 1) ∨
      (cmd = SETUPCMD_ENABLE_INTERRUPTS ∧ ((hi <<< 8) ||| lo) < 1) ∨
      (cmd ≠ SETUPCMD_FINISH ∧ cmd ≠ SETUPCMD_ADD_KEY ∧ cmd ≠ SETUPCMD_SET_DEBOUNCE ∧
        cmd ≠ SETUPCMD_AWAIT_SMOOTHNESS ∧ cmd ≠ CMD_RESET ∧ cmd ≠ SETUPCMD_ENABLE_INTERRUPTS)) :
    configStep st (cmd :: hi :: lo :: (payload ++ rest)) =
      some (CmdOutcome.cont, st, rest) := by
  have hdr : drain ((hi <<< 8) ||| lo) (payload ++ rest) = some rest := by
    rw [← hlen]
    exact drain_append payload rest
  rcases hbad with ⟨rfl, hlt⟩ | ⟨rfl, hlt⟩ | ⟨rfl, hlt⟩ | ⟨rfl, hlt⟩ | ⟨h1, h2, h3, h4, h5, h6⟩
  · simp [configStep, SETUPCMD_FINISH, SETUPCMD_ADD_KEY, hlt, hdr]
  · simp [configStep, SETUPCMD_FINISH, SETUPCMD_ADD_KEY, SETUPCMD_SET_DEBOUNCE, hlt, hdr]
  · simp [configStep, SETUPCMD_FINISH, SETUPCMD_ADD_KEY, SETUPCMD_SET_DEBOUNCE,
      SETUPCMD_AWAIT_SMOOTHNESS, hlt, hdr]
  · simp [configStep, SETUPCMD_FINISH, SETUPCMD_ADD_KEY, SETUPCMD_SET_DEBOUNCE,
      SETUPCMD_AWAIT_SMOOTHNESS, CMD_RESET, SETUPCMD_ENABLE_INTERRUPTS, hlt, hdr]
  · simp [configStep, h1, h2, h3, h4, h5, h6, hdr]

/-- Closed witness for C6: ADD_KEY with declared payload length 0 followed
by a FINISH command byte: the registry stays empty and the next byte is the
FINISH command byte. -/
theorem C6_malformed_commands_witness :
    ([] : List Nat).length = ((0 <<< 8) ||| 0) ∧
    configStep State.init (SETUPCMD_ADD_KEY :: 0 :: 0 :: (([] : List Nat) ++ [SETUPCMD_FINISH])) =
      some (CmdOutcome.cont, State.init, [SETUPCMD_FINISH]) :=
  ⟨by decide, C6_malformed_commands State.init SETUPCMD_ADD_KEY 0 0 [] [SETUPCMD_FINISH]
    (by decide) (Or.inl ⟨rfl, by decide⟩)⟩

/-- Claim C7 counterexample: a RESET command with declared payload length 2
and two payload bytes 0xAA 0xBB aborts configuration leaving both declared
payload bytes unconsumed in the stream (remaining input [0xAA, 0xBB], not
[]), so the next session does see them: the code skips the drain loop via
goto quit, contradicting the claim that the payload is read and discarded
before aborting. -/
theorem C7_reset_counterexample :
    configStep State.init [CMD_RESET, 0, 2, 0xAA, 0xBB] =
      some (CmdOutcome.reset, State.init, [0xAA, 0xBB]) := by
  decide

/-- Claim C7 (amended): when the RESET command arrives during CONFIGURING,
the device aborts configuration immediately without reading any of the
declared payload bytes; whatever was declared as payload stays in the
stream and is seen by the next session (whose resync will skip it as
garbage). -/
theorem C7_reset_amended (st : State) (hi lo : Nat) (rest : List Nat) :
    configStep st (CMD_RESET :: hi :: lo :: rest) = some (CmdOutcome.reset, st, rest) := by
  simp [configStep, CMD_RESET, SETUPCMD_FINISH, SETUPCMD_ADD_KEY, SETUPCMD_SET_DEBOUNCE,
    SETUPCMD_AWAIT_SMOOTHNESS]

/-- Claim C9: a session starts from the defaults debounce_micros = 1000,
await_smoothness = true, enable_interrupts = false and an empty key
registry, and a host that sends only the magic handshake and a FINISH
command with payload length 0 reaches streaming under exactly these
defaults. -/
theorem C9_session_defaults :
    State.init = { debounce_micros := 1000, await_smoothness := true,
                   enable_interrupts := false, keys := [] } ∧
    resyncRun (0, 0) (MAGIC_NUMBER ++ [SETUPCMD_FINISH, 0, 0]) =
      ((8, 0), [SETUPCMD_FINISH, 0, 0]) ∧
    configStep State.init [SETUPCMD_FINISH, 0, 0] =
      some (CmdOutcome.finished,
        { debounce_micros := 1000, await_smoothness := true,
          enable_interrupts := false, keys := [] }, []) :=
  ⟨rfl, by decide, by decide⟩

/-- A concrete reachable scan-engine run under the default configuration
(debounce 1000 us, await_smoothness true) with one key on pin 2: the key
goes down before the pass at t = 100, up before the pass at t = 200, and
down again before the pass at t = 1300, staying down through the pass at
t = 1360.  Every pass respects the re-entrancy guard (0, 150, 250, 1350). -/
def traceSt0 : State := Key_setup State.init 2

/-- First pass: t = 100, key raw-down. -/
def traceR1 : State × Nat × List Nat := Key_tick traceSt0 0 100 (fun _ => true)

/-- Second pass: t = 200, key raw-up. -/
def traceR2 : State × Nat × List Nat := Key_tick traceR1.1 traceR1.2.1 200 (fun _ => false)

/-- Third pass: t = 1300, key raw-down again and held from here on. -/
def traceR3 : State × Nat × List Nat := Key_tick traceR2.1 traceR2.2.1 1300 (fun _ => true)

/-- Fourth pass: t = 1360, key still raw-down, no raw change since t = 1300. -/
def traceR4 : State × Nat × List Nat := Key_tick traceR3.1 traceR3.2.1 1360 (fun _ => true)

/-- Claim C1: the code inverts the claimed (and self-documented) debounce
polarity.  For a pending change on a channel whose timer is armed and not
yet expired (timer deadline 1000, pass at now = 500) the code emits the
event byte 0x80 and updates the reported state, where the claim says the
armed unexpired timer must block it; for the same pending change with the
timer armed and expired (pass at now = 2000) the code emits nothing, where
the claim says a change whose timer has expired is reported. -/
theorem C1_debounce_polarity :
    tickKey true 1000 500 true 0
        { pin := 2, was_down := false, debounce_timer := { timeout := 1000, enabled := true } } =
      ({ pin := 2, was_down := true, debounce_timer := { timeout := 1500, enabled := true } },
        [128]) ∧
    (tickKey true 1000 2000 true 0
        { pin := 2, was_down := false, debounce_timer := { timeout := 1000, enabled := true } }).2 =
      [] := by
  decide

/-- Claim C2: in the reachable trace above, the raw transition to up before
the pass at t = 200 happens while the debounce window armed at t = 100 runs
until t = 1100, yet the event byte 0 is emitted already at t = 200 — on the
first invocation after the transition and well before the debounce window
has elapsed — contradicting the claim that the event is emitted only on the
first invocation at or after window elapse, never earlier. -/
theorem C2_early_emission :
    traceR1.2.2 = [128] ∧
    traceR1.1.keys.map (fun k => k.debounce_timer) = [{ timeout := 1100, enabled := true }] ∧
    traceR2.2.2 = [0] := by
  decide

/-- Claim C5 counterexample: in the reachable trace above, the pass at
t = 1300 finds a pending change (reported up, raw down) whose armed timer
has just expired, so the change is blocked and the pass emits nothing; the
next pass at t = 1360 — past the guard instant 1350, with no raw change in
between — emits the event byte 0x80.  So two successive engine invocations
with no raw channel-state change between them can emit an event on the
second call, refuting the claim. -/
theorem C5_idempotence_counterexample :
    traceR3.2.2 = [] ∧ traceR3.2.1 = 1350 ∧ traceR4.2.2 = [128] := by
  decide

/-- Claim C5 (amended): a second invocation of the scan engine with no raw
state change emits zero events whenever it occurs before the not-before
guard instant left by the first call (as an immediate back-to-back
invocation does), and also — at any later instant — whenever the first call
left no blocked pending change (every key's reported state equals its raw
state).  Without one of these provisos a change blocked by the first call
can be emitted by the second (see the counterexample). -/
theorem C5_idempotence_amended (st : State) (guard now now2 : Nat) (raw : Nat → Bool) :
    (now2 < (Key_tick st guard now raw).2.1 →
      Key_tick (Key_tick st guard now raw).1 (Key_tick st guard now raw).2.1 now2 raw =
        ((Key_tick st guard now raw).1, (Key_tick st guard now raw).2.1, [])) ∧
    ((∀ k ∈ (Key_tick st guard now raw).1.keys, k.was_down = raw k.pin) →
      (Key_tick (Key_tick st guard now raw).1 (Key_tick st guard now raw).2.1 now2 raw).2.2 =
        []) := by
  have key : ∀ (st1 : State) (g1 : Nat),
      (now2 < g1 → Key_tick st1 g1 now2 raw = (st1, g1, [])) ∧
      ((∀ k ∈ st1.keys, k.was_down = raw k.pin) → (Key_tick st1 g1 now2 raw).2.2 = []) := by
    intro st1 g1
    constructor
    · intro h
      simp [Key_tick, h]
    · intro h
      by_cases h2 : now2 < g1
      · simp [Key_tick, h2]
      · have hst := tickKeys_stable st1.await_smoothness st1.debounce_micros now2 raw 0 st1.keys h
        simp [Key_tick, h2, hst]
  exact ⟨fun h => (key _ _).1 h, fun h => (key _ _).2 h⟩

/-- Closed witness for the amended C5 on the empty registry: the first call
at t = 0 leaves guard 50; a second call at t = 10 is a guarded no-op, and
the no-pending-change proviso also gives zero events. -/
theorem C5_idempotence_amended_witness :
    Key_tick (Key_tick State.init 0 0 (fun _ => true)).1
        (Key_tick State.init 0 0 (fun _ => true)).2.1 10 (fun _ => true) =
      ((Key_tick State.init 0 0 (fun _ => true)).1,
        (Key_tick State.init 0 0 (fun _ => true)).2.1, []) ∧
    (Key_tick (Key_tick State.init 0 0 (fun _ => true)).1
        (Key_tick State.init 0 0 (fun _ => true)).2.1 10 (fun _ => true)).2.2 = [] :=
  ⟨(C5_idempotence_amended State.init 0 0 10 (fun _ => true)).1 (by decide),
    (C5_idempotence_amended State.init 0 0 10 (fun _ => true)).2 (by decide)⟩

/-- Claim C10: one STREAMING poll iteration runs the scan engine and then
consumes at most one byte of serial input; the state update and emitted
events are those of Key_tick alone, independent of the consumed byte, and
the loop exits exactly when the consumed byte is the reset byte 0xEE (an
empty stream reads -1 and never exits). -/
theorem C10_streaming_poll (st : State) (guard now : Nat) (raw : Nat → Bool)
    (serial : List Nat) :
    (streamPoll st guard now raw serial).1 = Key_tick st guard now raw ∧
    (streamPoll st guard now raw serial).2.1 = serial.tail ∧
    serial.length ≤ (streamPoll st guard now raw serial).2.1.length + 1 ∧
    ((streamPoll st guard now raw serial).2.2 = true ↔ serial.head? = some CMD_RESET) := by
  cases serial with
  | nil => simp [streamPoll]
  | cons b rest => simp [streamPoll]
